import Mathlib

/-!
Verification of the package-push pipeline of the cauimws repository:
the sqlite-backed robot directory store (src/robotdb.py), the hub/robot
enumeration wrappers (src/cauimws.py: get_hubs, get_robots, push_pkg) and
the dispatcher main loop (src/push-pkg-by-robot.py: main).

The Python code is shallowly embedded: the sqlite table
`uim_robots_tbl (robot TEXT PRIMARY KEY, hub TEXT)` becomes a list of
(robot, hub) rows in insertion order (a failed `create_db` leaves no
table, modelled as `none`); the external Management API and the
automated-deployment-engine callback become an explicit environment
(`Env`) recording, for each call, what the remote side answers; Python
string operations (`.lower()`, `.strip()`, substring `in`) are embedded
for the ASCII data the program handles (SQL `lower()` is ASCII-only as
well).
-/

namespace Cauimws

/-- Python `str.lower` / SQL `lower()` on one character (ASCII case map). -/
def lowerChar (c : Char) : Char :=
  if 'A' ≤ c ∧ c ≤ 'Z' then Char.ofNat (c.toNat + 32) else c

/-- Python `str.lower` / SQL `lower()` on a string (ASCII case map). -/
def pyLower (s : String) : String :=
  String.mk (s.data.map lowerChar)

/-- The whitespace characters removed by Python `str.strip`. -/
def isPySpace (c : Char) : Bool :=
  c == ' ' || c == '\t' || c == '\n' || c == '\r' || c == '\x0b' || c == '\x0c'

/-- Python `str.strip`: drop leading and trailing whitespace. -/
def pyStrip (s : String) : String :=
  String.mk (((s.data.dropWhile isPySpace).reverse.dropWhile isPySpace).reverse)

/-- Is `p` a leading segment of `l`? (helper for the substring test). -/
def listIsPref : List Char → List Char → Bool
  | [], _ => true
  | _ :: _, [] => false
  | a :: as, b :: bs => a == b && listIsPref as bs

/-- Does `needle` occur as a contiguous segment of the second list? -/
def listSub (needle : List Char) : List Char → Bool
  | [] => listIsPref needle []
  | c :: rest => listIsPref needle (c :: rest) || listSub needle rest

/-- Python `needle in hay` on strings: substring containment.  This is the
test `main` performs with `hub['name'] not in excluded`, where `excluded`
is the raw configuration string. -/
def pyStrIn (needle hay : String) : Bool :=
  listSub needle.data hay.data

/-- A hub record as returned by the Management API (`hub['name']`). -/
structure Hub where
  name : String
deriving DecidableEq

/-- A robot record as returned by the Management API (`robot['name']`). -/
structure Robot where
  name : String
deriving DecidableEq

/-- The external world of one run: what the Management API answers to the
hub enumeration (`none` = connection error or non-success status), what it
answers per hub to the robot enumeration (`none` = that call fails), the
outcome of each deployment callback for a (hub, robot) pair at a given
attempt index, and whether the `CREATE TABLE` statement of create_db
succeeds after a successful connect and drop (see create_db below for the
other error paths of the source, which are not modelled here). -/
structure Env where
  hubsResp : Option (List Hub)
  robotsResp : String → Option (List Robot)
  push : String → String → Nat → Bool
  createOk : Bool

/-- cauimws.get_hubs: returns the hub list on HTTP 200, and the empty
`loads('{}')` result when the call fails (ConnectionError) or the status
is not 200 — the failure is logged and absorbed. -/
def get_hubs (env : Env) : List Hub :=
  env.hubsResp.getD []

/-- cauimws.get_robots: returns the robot list on HTTP 200, and the empty
`loads('{}')` result when the call fails or the status is not 200. -/
def get_robots (env : Env) (hub : String) : List Robot :=
  (env.robotsResp hub).getD []

/-- The robot directory store: `none` when the table does not exist
(creation failed), otherwise the rows of `uim_robots_tbl` in insertion
(rowid) order.  Each row is (robot, hub); `robot` is the primary key. -/
abbrev Store := Option (List (String × String))

/-- robotdb.create_db: drop and recreate `uim_robots_tbl`.  On success the
table is empty.  The failure branch modelled here (`createOk = false`) is
the one in which connect and the DROP succeed but the CREATE statement
raises a caught sqlite Error: the old table is gone, the new one was never
made, so later inserts and queries all fail (caught, giving False / None)
— a run with no usable table.  The source has two further error paths that
this embedding deliberately does not model and that no theorem below
relies on: if `connect` itself raises, `conn` is never bound and the
trailing `if conn:` raises an uncaught UnboundLocalError that aborts the
whole process, and if the DROP fails with the connection open the previous
run's table survives and stays queryable.  The boolean result the Python
function returns is ignored by its only caller, so within a run the store
itself is the whole observable effect. -/
def create_db (env : Env) : Store :=
  if env.createOk then some [] else none

/-- One INSERT of robotdb.put_robots: `INSERT INTO uim_robots_tbl (robot,
hub) VALUES(...)`.  `robot` is the primary key (sqlite BINARY collation,
exact match), so the insert raises IntegrityError — caught and logged —
when a row with the same robot name already exists, leaving the table
unchanged; otherwise the row is appended. -/
def insertRobot (rows : List (String × String)) (hub : String) (name : String) :
    List (String × String) :=
  if rows.any (fun p => p.1 == name) then rows else rows ++ [(name, hub)]

/-- robotdb.put_robots: insert one row per robot; each failed insert is
logged and skipped, the rest proceed.  With no table every insert fails. -/
def put_robots (st : Store) (hub : String) (robots : List Robot) : Store :=
  match st with
  | none => none
  | some rows => some (robots.foldl (fun rs r => insertRobot rs hub r.name) rows)

/-- robotdb.has_robot: `SELECT hub, robot FROM uim_robots_tbl WHERE
lower(robot) = '<hostname.lower()>'` with `fetchone`, i.e. the first row
in rowid order whose robot matches case-insensitively, as (hub, robot);
`None` when there is no match or the query fails (no table). -/
def has_robot (st : Store) (hostname : String) : Option (String × String) :=
  match st with
  | none => none
  | some rows =>
    (rows.find? (fun p => pyLower p.1 == pyLower hostname)).map (fun p => (p.2, p.1))

/-- The snapshot-building loop of push-pkg-by-robot.main (lines 49-58):
create the store, then for each hub whose name is not a substring of the
configured exclusion string, fetch its robots and put them in the store. -/
def buildStore (env : Env) (excluded : String) : Store :=
  (get_hubs env).foldl
    (fun st hub =>
      if pyStrIn hub.name excluded then st
      else put_robots st hub.name (get_robots env hub.name))
    (create_db env)

/-- The state of the retry loop of main (lines 70-75): the last push_pkg
result, the `attempts` counter of extra tries, the number of sleeps
performed, and the (hub, robot) arguments of every push_pkg call so far. -/
structure LoopState where
  pushed : Bool
  attempts : Nat
  sleeps : Nat
  args : List (String × String)
deriving DecidableEq

/-- The `while not pushed and attempts < retries` loop of main.  The loop
guard is kept verbatim; the fuel argument only bounds the recursion and is
supplied as `retries.toNat`, which the guard (attempts starts at 0 and
increments by 1 each iteration) never exceeds, so the fuel never cuts an
iteration the guard would allow. -/
def pushLoop (push : Nat → Bool) (hub rb : String) (retries : Int) :
    Nat → LoopState → LoopState
  | 0, s => s
  | fuel + 1, s =>
    if s.pushed = false ∧ (s.attempts : Int) < retries then
      pushLoop push hub rb retries fuel
        ⟨push (s.attempts + 1), s.attempts + 1, s.sleeps + 1, s.args ++ [(hub, rb)]⟩
    else s

/-- Everything one iteration of the target loop of main produces: the
normalized hostname (`target.strip().lower()`), the has_robot result, the
final push result, the total number of push_pkg calls, the number of
sleeps, and the (hub, robot) arguments of each push_pkg call. -/
structure TargetOutcome where
  robotNorm : String
  found : Option (String × String)
  pushed : Bool
  attempts : Nat
  sleeps : Nat
  pushArgs : List (String × String)
deriving DecidableEq

/-- One iteration of the target loop of main (lines 63-81), up to but not
including the report writes: normalize, look the robot up once, and if
found push with retries; if not found, no push_pkg call is made. -/
def processTarget (st : Store) (pushFn : String → String → Nat → Bool)
    (retries : Int) (target : String) : TargetOutcome :=
  let robot := pyLower (pyStrip target)
  match has_robot st robot with
  | none => ⟨robot, none, false, 0, 0, []⟩
  | some (hub, rb) =>
    let push := pushFn hub rb
    let s := pushLoop push hub rb retries retries.toNat ⟨push 0, 0, 0, [(hub, rb)]⟩
    ⟨robot, some (hub, rb), s.pushed, s.attempts + 1, s.sleeps, s.args⟩

/-- The report writes of main for one target: a found-and-pushed target
appends its normalized name to pushed.txt and increments times_pushed; a
found-but-not-pushed target writes nothing; an unresolved target appends
its normalized name to norobot.txt.  The accumulator is (pushed lines,
norobot lines, times_pushed). -/
def reportStep (acc : List String × List String × Nat) (o : TargetOutcome) :
    List String × List String × Nat :=
  match o.found with
  | some _ =>
    if o.pushed then (acc.1 ++ [o.robotNorm], acc.2.1, acc.2.2 + 1) else acc
  | none => (acc.1, acc.2.1 ++ [o.robotNorm], acc.2.2)

/-- The report contents accumulated over a list of outcomes, starting from
empty files and a zero counter. -/
def reportFold (outs : List TargetOutcome) : List String × List String × Nat :=
  outs.foldl reportStep ([], [], 0)

/-- The per-target outcomes of one run, in input order. -/
def runOutcomes (env : Env) (excluded : String) (retries : Int)
    (targets : List String) : List TargetOutcome :=
  targets.map (processTarget (buildStore env excluded) env.push retries)

/-- The observable result of one run of main: the two report files (one
hostname per line, in input order), the times_pushed counter, and the
per-target outcomes. -/
structure RunResult where
  pushedReport : List String
  norobotReport : List String
  timesPushed : Nat
  outcomes : List TargetOutcome

/-- push-pkg-by-robot.main as a function of the environment, the exclusion
string, the retry count and the target lines: build the snapshot store,
then process every target in order, writing the two reports. -/
def runPipeline (env : Env) (excluded : String) (retries : Int)
    (targets : List String) : RunResult :=
  let outs := runOutcomes env excluded retries targets
  let rep := reportFold outs
  ⟨rep.1, rep.2.1, rep.2.2, outs⟩

/-- The topology of the specification scenario (§8): HUB-A owns srv1 and
srv2, HUB-B owns srv3, every call succeeds, deployment always succeeds. -/
def envC4 : Env :=
  ⟨some [⟨"HUB-A"⟩, ⟨"HUB-B"⟩],
   fun h => if h == "HUB-A" then some [⟨"srv1"⟩, ⟨"srv2"⟩] else some [⟨"srv3"⟩],
   fun _ _ _ => true,
   true⟩

/-! ### Generic helpers -/

theorem foldl_preserve {α β : Type} (P : β → Prop) (f : β → α → β)
    (hstep : ∀ b a, P b → P (f b a)) :
    ∀ (l : List α) (b : β), P b → P (l.foldl f b)
  | [], _, hb => hb
  | a :: l, b, hb => foldl_preserve P f hstep l (f b a) (hstep b a hb)

theorem find?_append_some {α : Type} (p : α → Bool) :
    ∀ (l1 l2 : List α) (a : α), l1.find? p = some a → (l1 ++ l2).find? p = some a
  | [], _, _, h => by simp [List.find?] at h
  | x :: l1, l2, a, h => by
    by_cases hx : p x = true
    · rw [List.find?_cons_of_pos _ hx] at h
      rw [List.cons_append, List.find?_cons_of_pos _ hx]
      exact h
    · rw [List.find?_cons_of_neg _ (by simpa using hx)] at h
      rw [List.cons_append, List.find?_cons_of_neg _ (by simpa using hx)]
      exact find?_append_some p l1 l2 a h

/-! ### Store lemmas -/

theorem insertRobot_extends (rows : List (String × String)) (hub name : String) :
    ∃ ext, insertRobot rows hub name = rows ++ ext := by
  unfold insertRobot
  split
  · exact ⟨[], by simp⟩
  · exact ⟨[(name, hub)], rfl⟩

theorem putRobots_extends (hub : String) (robots : List Robot) :
    ∀ rows : List (String × String),
      ∃ ext, robots.foldl (fun rs r => insertRobot rs hub r.name) rows = rows ++ ext := by
  induction robots with
  | nil => exact fun rows => ⟨[], by simp⟩
  | cons r robots ih =>
    intro rows
    obtain ⟨e1, he1⟩ := insertRobot_extends rows hub r.name
    obtain ⟨e2, he2⟩ := ih (insertRobot rows hub r.name)
    refine ⟨e1 ++ e2, ?_⟩
    simp only [List.foldl_cons]
    rw [he2, he1, List.append_assoc]

/-- Rows already in the table are never overwritten by later put_robots
calls: a successful lookup survives any further insertion batch (the
duplicate INSERT violates the primary key and is skipped). -/
theorem has_robot_mono (rows : List (String × String)) (hub : String)
    (robots : List Robot) (n : String) (r : String × String)
    (h : has_robot (some rows) n = some r) :
    has_robot (put_robots (some rows) hub robots) n = some r := by
  obtain ⟨ext, hext⟩ := putRobots_extends hub robots rows
  simp only [has_robot, put_robots, hext] at h ⊢
  cases hf : rows.find? (fun p => pyLower p.1 == pyLower n) with
  | none => rw [hf] at h; simp at h
  | some p =>
    rw [hf] at h
    rw [find?_append_some _ rows ext p hf]
    exact h

theorem insertRobot_nodup (rows : List (String × String)) (hub name : String)
    (h : (rows.map Prod.fst).Nodup) :
    ((insertRobot rows hub name).map Prod.fst).Nodup := by
  unfold insertRobot
  split
  · exact h
  · rename_i hany
    rw [List.map_append, List.nodup_append]
    refine ⟨h, by simp, ?_⟩
    intro x hx hx'
    simp only [List.map_cons, List.map_nil, List.mem_singleton] at hx'
    subst hx'
    obtain ⟨p, hp, hpx⟩ := List.mem_map.mp hx
    exact hany (List.any_eq_true.mpr ⟨p, hp, by simp [hpx]⟩)

theorem putRobots_nodup (hub : String) (robots : List Robot) :
    ∀ rows : List (String × String), (rows.map Prod.fst).Nodup →
      ((robots.foldl (fun rs r => insertRobot rs hub r.name) rows).map Prod.fst).Nodup := by
  induction robots with
  | nil => exact fun rows h => h
  | cons r robots ih =>
    intro rows h
    simp only [List.foldl_cons]
    exact ih _ (insertRobot_nodup rows hub r.name h)

/-- Every state of the snapshot build keeps the robot column free of
exact duplicates (it is the primary key). -/
theorem buildStore_nodup (env : Env) (excluded : String) :
    ∀ rows, buildStore env excluded = some rows → (rows.map Prod.fst).Nodup := by
  unfold buildStore
  refine foldl_preserve
    (fun st : Store => ∀ rows : List (String × String),
      st = some rows → (rows.map Prod.fst).Nodup) _ ?_ _ _ ?_
  · intro st hub hP
    split
    · exact hP
    · cases st with
      | none => intro rows h; simp [put_robots] at h
      | some rs =>
        intro rows h
        simp only [put_robots, Option.some.injEq] at h
        subst h
        exact putRobots_nodup _ _ rs (hP rs rfl)
  · intro rows h
    unfold create_db at h
    split at h
    · cases h; simp
    · cases h

/-! ### C1 -/

/-- Two hubs both reporting robot srv1, HUB-A first. -/
def envC1 : Env :=
  ⟨some [⟨"HUB-A"⟩, ⟨"HUB-B"⟩],
   fun _ => some [⟨"srv1"⟩],
   fun _ _ _ => true,
   true⟩

/-- C1: refuted as stated.  When the Management API reports robot "srv1"
under HUB-A and then under HUB-B in the same run, the lookup after the
build returns HUB-A — the hub of the earlier put, not of the later one:
the duplicate INSERT violates the robot primary key and is skipped. -/
theorem C1_counterexample :
    has_robot (buildStore envC1 "") "srv1" = some ("HUB-A", "srv1") ∧
    ("HUB-A" : String) ≠ "HUB-B" := by
  constructor
  · decide
  · decide

/-- C1 (amended): the store holds at most one hub per exact robot name
(the robot column is duplicate-free in every snapshot build), and when the
same robot name is written under two different hubs in one run the entry
kept is the FIRST one written (first-write-wins): a put never changes the
result of a lookup that already succeeds, so the lookup after the build
returns the hub of the earlier put. -/
theorem C1_amended :
    (∀ (env : Env) (excluded : String) (rows : List (String × String)),
       buildStore env excluded = some rows → (rows.map Prod.fst).Nodup) ∧
    (∀ (rows : List (String × String)) (hub : String) (robots : List Robot)
       (n : String) (r : String × String),
       has_robot (some rows) n = some r →
       has_robot (put_robots (some rows) hub robots) n = some r) :=
  ⟨buildStore_nodup, has_robot_mono⟩

/-- C1 witness: the amended statement instantiated on the concrete
two-hub conflict: the built store is exactly the HUB-A row, its key column
is duplicate-free, and putting srv1 again under HUB-B leaves the lookup
answering HUB-A. -/
theorem C1_witness :
    (([("srv1", "HUB-A")] : List (String × String)).map Prod.fst).Nodup ∧
    has_robot (put_robots (some [("srv1", "HUB-A")]) "HUB-B" [⟨"srv1"⟩]) "srv1" =
      some ("HUB-A", "srv1") :=
  ⟨C1_amended.1 envC1 "" [("srv1", "HUB-A")] (by decide),
   C1_amended.2 [("srv1", "HUB-A")] "HUB-B" [⟨"srv1"⟩] "srv1" ("HUB-A", "srv1")
     (by decide)⟩

/-! ### Outcome and report lemmas -/

theorem processTarget_none (st : Store) (pushFn : String → String → Nat → Bool)
    (retries : Int) (t : String)
    (h : has_robot st (pyLower (pyStrip t)) = none) :
    processTarget st pushFn retries t = ⟨pyLower (pyStrip t), none, false, 0, 0, []⟩ := by
  simp only [processTarget, h]

theorem foldl_reportStep_norobot :
    ∀ (outs : List TargetOutcome) (acc : List String × List String × Nat),
      (∀ o ∈ outs, o.found = none) →
      outs.foldl reportStep acc =
        (acc.1, acc.2.1 ++ outs.map (fun o => o.robotNorm), acc.2.2) := by
  intro outs
  induction outs with
  | nil => intro acc _; simp
  | cons o outs ih =>
    intro acc h
    have ho : o.found = none := h o (by simp)
    simp only [List.foldl_cons]
    rw [ih _ (fun x hx => h x (by simp [hx]))]
    simp [reportStep, ho]

/-- The store never resolves anything when hub enumeration failed: no hub
is iterated, so the store keeps whatever create_db left — an empty or
absent table, in which every lookup fails. -/
theorem buildStore_lookup_none (env : Env) (excluded : String)
    (h : env.hubsResp = none) :
    ∀ x, has_robot (buildStore env excluded) x = none := by
  intro x
  unfold buildStore get_hubs
  rw [h]
  simp only [Option.getD_none, List.foldl_nil]
  unfold create_db
  split
  · simp [has_robot]
  · simp [has_robot]

/-! ### C2 -/

/-- An environment whose hub-enumeration call fails (connection error or
non-200 status): get_hubs answers the empty `loads('{}')` result. -/
def envC2 : Env :=
  ⟨none, fun _ => some [], fun _ _ _ => true, true⟩

/-- C2: refuted as stated.  With hub enumeration failing, the run does not
abort before dispatch: the target loop still runs and writes every target
to the unresolved report — here target "srv1" is processed and written,
contradicting "no target is processed or written to any report". -/
theorem C2_counterexample :
    (runPipeline envC2 "" 1 ["srv1"]).norobotReport = ["srv1"] ∧
    (["srv1"] : List String) ≠ [] := by
  constructor
  · decide
  · decide

/-- C2 (amended): a failure to enumerate hubs is absorbed, not fatal:
get_hubs catches the connection error (and logs the non-success status)
and returns an empty hub list, so the run continues into dispatch with an
empty store — every target is written to the unresolved report under its
normalized name, nothing is pushed, the success count is zero and no
deployment attempt is made.  (Only the hub-enumeration half of the
original claim is amended; the store-initialization paths of create_db
are path-dependent in the source — see the create_db doc comment — and
are not settled here.) -/
theorem C2_amended (env : Env) (excluded : String) (retries : Int)
    (targets : List String)
    (h : env.hubsResp = none) :
    (runPipeline env excluded retries targets).pushedReport = [] ∧
    (runPipeline env excluded retries targets).norobotReport =
      targets.map (fun t => pyLower (pyStrip t)) ∧
    (runPipeline env excluded retries targets).timesPushed = 0 ∧
    (runPipeline env excluded retries targets).outcomes.all
      (fun o => o.attempts == 0) = true := by
  have hlook := buildStore_lookup_none env excluded h
  have hfun : processTarget (buildStore env excluded) env.push retries =
      fun t => (⟨pyLower (pyStrip t), none, false, 0, 0, []⟩ : TargetOutcome) :=
    funext fun t => processTarget_none _ _ _ _ (hlook _)
  have houts : runOutcomes env excluded retries targets =
      targets.map (fun t => (⟨pyLower (pyStrip t), none, false, 0, 0, []⟩ : TargetOutcome)) := by
    unfold runOutcomes
    rw [hfun]
  have hrep := foldl_reportStep_norobot
    (targets.map (fun t => (⟨pyLower (pyStrip t), none, false, 0, 0, []⟩ : TargetOutcome)))
    ([], [], 0)
    (by
      intro o ho
      obtain ⟨t, _, rfl⟩ := List.mem_map.mp ho
      rfl)
  simp only [runPipeline, houts, reportFold, hrep, List.nil_append, List.map_map]
  simp [List.all_eq_true]

/-- C2 witness: the amended statement at the concrete failing-enumeration
environment with one target in the list. -/
theorem C2_witness :
    (runPipeline envC2 "" 1 ["srv1"]).pushedReport = [] ∧
    (runPipeline envC2 "" 1 ["srv1"]).norobotReport =
      (["srv1"] : List String).map (fun t => pyLower (pyStrip t)) ∧
    (runPipeline envC2 "" 1 ["srv1"]).timesPushed = 0 ∧
    (runPipeline envC2 "" 1 ["srv1"]).outcomes.all
      (fun o => o.attempts == 0) = true :=
  C2_amended envC2 "" 1 ["srv1"] rfl

/-! ### C3 -/

/-- One hub named "UB-" owning robot srv9. -/
def envC3 : Env :=
  ⟨some [⟨"UB-"⟩], fun _ => some [⟨"srv9"⟩], fun _ _ _ => true, true⟩

/-- C3: refuted as stated.  The exclusion configuration value is a string
and the skip test is Python substring membership, not set membership: hub
"UB-" is not a member of the exclusion set written "HUB-B", yet "UB-" is a
substring of "HUB-B", so the hub is skipped and its robot srv9 is never
loaded into the store. -/
theorem C3_counterexample :
    ("UB-" ∉ (["HUB-B"] : List String)) ∧
    pyStrIn "UB-" "HUB-B" = true ∧
    has_robot (buildStore envC3 "HUB-B") "srv9" = none := by
  refine ⟨by decide, by decide, by decide⟩

theorem foldl_if_skip {α β : Type} (c : α → Bool) (f : β → α → β) :
    ∀ (l : List α) (b : β),
      l.foldl (fun st a => if c a then st else f st a) b =
        (l.filter (fun a => !c a)).foldl f b := by
  intro l
  induction l with
  | nil => intro b; rfl
  | cons a l ih =>
    intro b
    by_cases hc : c a = true
    · simp [List.filter_cons, hc, ih]
    · simp [List.filter_cons, hc, ih]

/-- C3 (amended): a hub is skipped during the snapshot build exactly when
its name is a substring of the configured exclusion string (the Python
`in` test on strings): (a) in general, the build is precisely the build
over the hubs whose names are not substrings of the exclusion string —
those hubs get their robots enumerated and put, the substring hubs
contribute nothing; (b) observationally, in a topology of one hub owning
one robot, looking the robot up after the build fails when the hub name is
a substring of the exclusion string and returns that hub otherwise. -/
theorem C3_amended :
    (∀ (env : Env) (excluded : String),
       buildStore env excluded =
         ((get_hubs env).filter (fun h => !pyStrIn h.name excluded)).foldl
           (fun st hub => put_robots st hub.name (get_robots env hub.name))
           (create_db env)) ∧
    (∀ (hname rname excluded : String),
       has_robot
         (buildStore ⟨some [⟨hname⟩], fun _ => some [⟨rname⟩], fun _ _ _ => true, true⟩
           excluded) rname =
         if pyStrIn hname excluded then none else some (hname, rname)) := by
  constructor
  · intro env excluded
    unfold buildStore
    exact foldl_if_skip (fun h => pyStrIn h.name excluded)
      (fun st hub => put_robots st hub.name (get_robots env hub.name))
      (get_hubs env) (create_db env)
  · intro hname rname excluded
    by_cases hex : pyStrIn hname excluded = true
    · simp [buildStore, get_hubs, create_db, has_robot, hex]
    · simp only [Bool.not_eq_true] at hex
      simp [buildStore, get_hubs, create_db, put_robots, insertRobot, has_robot, hex,
        List.find?]

/-! ### C4 -/

/-- C4: refuted as stated.  In the specification scenario the pipeline
writes the case-normalized hostnames to the reports (`robot =
target.strip().lower()` is what is written, not the original target
line), so the pushed report for target "SRV3" reads "srv3": the pushed
report is ["srv1", "srv3"], not ["srv1", "SRV3"]. -/
theorem C4_counterexample :
    (runPipeline envC4 "" 1 ["srv1", "srv4", "SRV3"]).pushedReport = ["srv1", "srv3"] ∧
    (["srv1", "srv3"] : List String) ≠ ["srv1", "SRV3"] := by
  constructor
  · decide
  · decide

/-- C4 (amended): in the scenario with hubs HUB-A ← {srv1, srv2} and
HUB-B ← {srv3}, empty exclusion, targets ["srv1", "srv4", "SRV3"],
max_retries = 1 and an always-succeeding deployment, the pushed report is
exactly ["srv1", "srv3"] — each hostname in its lowercased form, "SRV3"
included — the unresolved report is exactly ["srv4"], and two pushes are
counted. -/
theorem C4_amended :
    (runPipeline envC4 "" 1 ["srv1", "srv4", "SRV3"]).pushedReport = ["srv1", "srv3"] ∧
    (runPipeline envC4 "" 1 ["srv1", "srv4", "SRV3"]).norobotReport = ["srv4"] ∧
    (runPipeline envC4 "" 1 ["srv1", "srv4", "SRV3"]).timesPushed = 2 := by
  refine ⟨by decide, by decide, by decide⟩

/-! ### Retry-loop lemmas -/

theorem pushLoop_stop (push : Nat → Bool) (hub rb : String) (retries : Int) :
    ∀ (fuel : Nat) (s : LoopState), s.pushed = true →
      pushLoop push hub rb retries fuel s = s
  | 0, _, _ => rfl
  | fuel + 1, s, hp => by
    unfold pushLoop
    rw [if_neg (by simp [hp])]

theorem pushLoop_step (push : Nat → Bool) (hub rb : String) (retries : Int)
    (fuel : Nat) (a sl : Nat) (args : List (String × String))
    (ha : (a : Int) < retries) :
    pushLoop push hub rb retries (fuel + 1) ⟨false, a, sl, args⟩ =
      pushLoop push hub rb retries fuel
        ⟨push (a + 1), a + 1, sl + 1, args ++ [(hub, rb)]⟩ := by
  simp [pushLoop, ha]

theorem pushLoop_all_fail (push : Nat → Bool) (hub rb : String) (retries : Int)
    (hf : ∀ k, push k = false) :
    ∀ (fuel a sl : Nat) (args : List (String × String)),
      (retries - (a : Int)).toNat = fuel →
      pushLoop push hub rb retries fuel ⟨false, a, sl, args⟩ =
        ⟨false, a + fuel, sl + fuel, args ++ List.replicate fuel (hub, rb)⟩
  | 0, a, sl, args, _ => by simp [pushLoop]
  | fuel + 1, a, sl, args, hfuel => by
    rw [pushLoop_step push hub rb retries fuel a sl args (by omega)]
    rw [hf (a + 1)]
    rw [pushLoop_all_fail push hub rb retries hf fuel (a + 1) (sl + 1)
      (args ++ [(hub, rb)]) (by omega)]
    have h1 : a + 1 + fuel = a + (fuel + 1) := by omega
    have h2 : sl + 1 + fuel = sl + (fuel + 1) := by omega
    have h3 : (args ++ [(hub, rb)]) ++ List.replicate fuel (hub, rb) =
        args ++ List.replicate (fuel + 1) (hub, rb) := by
      rw [List.append_assoc]
      rfl
    rw [h1, h2, h3]

theorem processTarget_some (st : Store) (pushFn : String → String → Nat → Bool)
    (retries : Int) (t hub rb : String)
    (h : has_robot st (pyLower (pyStrip t)) = some (hub, rb)) :
    processTarget st pushFn retries t =
      ⟨pyLower (pyStrip t), some (hub, rb),
       (pushLoop (pushFn hub rb) hub rb retries retries.toNat
          ⟨pushFn hub rb 0, 0, 0, [(hub, rb)]⟩).pushed,
       (pushLoop (pushFn hub rb) hub rb retries retries.toNat
          ⟨pushFn hub rb 0, 0, 0, [(hub, rb)]⟩).attempts + 1,
       (pushLoop (pushFn hub rb) hub rb retries retries.toNat
          ⟨pushFn hub rb 0, 0, 0, [(hub, rb)]⟩).sleeps,
       (pushLoop (pushFn hub rb) hub rb retries retries.toNat
          ⟨pushFn hub rb 0, 0, 0, [(hub, rb)]⟩).args⟩ := by
  simp only [processTarget, h]

/-! ### C5 -/

/-- CLAIM C5: for every resolved target and every max_retries = N ≥ 0, a
deployment that fails on every attempt is tried exactly N + 1 times (the
initial push_pkg call plus N loop iterations) and the final outcome is
not succeeded. -/
theorem C5_theorem (st : Store) (pushFn : String → String → Nat → Bool)
    (retries : Int) (t hub rb : String)
    (hfound : has_robot st (pyLower (pyStrip t)) = some (hub, rb))
    (hfail : ∀ k, pushFn hub rb k = false)
    (hret : 0 ≤ retries) :
    (processTarget st pushFn retries t).attempts = retries.toNat + 1 ∧
    (processTarget st pushFn retries t).pushed = false := by
  rw [processTarget_some st pushFn retries t hub rb hfound, hfail 0]
  rw [pushLoop_all_fail (pushFn hub rb) hub rb retries hfail retries.toNat 0 0
    [(hub, rb)] (by omega)]
  exact ⟨by simp, rfl⟩

/-- A one-row store resolving srv1 to HUB-A. -/
def stOne : Store := some [("srv1", "HUB-A")]

/-- C5 witness: resolved target srv1, max_retries = 2, an always-failing
deployment: exactly 3 attempts and not succeeded. -/
theorem C5_witness :
    (processTarget stOne (fun _ _ _ => false) 2 "srv1").attempts = (2 : Int).toNat + 1 ∧
    (processTarget stOne (fun _ _ _ => false) 2 "srv1").pushed = false :=
  C5_theorem stOne (fun _ _ _ => false) 2 "srv1" "HUB-A" "srv1" (by decide)
    (fun _ => rfl) (by decide)

/-! ### C6 -/

/-- CLAIM C6: for every resolved target with max_retries ≥ 1, a
deployment that fails on the first attempt and succeeds on the second
stops after exactly 2 attempts with a succeeded outcome, and both push
calls use the same (hub, robot) resolution from the single initial
lookup — the store is not queried again for that target. -/
theorem C6_theorem (st : Store) (pushFn : String → String → Nat → Bool)
    (retries : Int) (t hub rb : String)
    (hfound : has_robot st (pyLower (pyStrip t)) = some (hub, rb))
    (h0 : pushFn hub rb 0 = false) (h1 : pushFn hub rb 1 = true)
    (hret : 1 ≤ retries) :
    (processTarget st pushFn retries t).pushed = true ∧
    (processTarget st pushFn retries t).attempts = 2 ∧
    (processTarget st pushFn retries t).pushArgs = [(hub, rb), (hub, rb)] := by
  rw [processTarget_some st pushFn retries t hub rb hfound, h0]
  obtain ⟨f, hf⟩ : ∃ f, retries.toNat = f + 1 := ⟨retries.toNat - 1, by omega⟩
  rw [hf, pushLoop_step (pushFn hub rb) hub rb retries f 0 0 [(hub, rb)] (by omega)]
  rw [pushLoop_stop (pushFn hub rb) hub rb retries f _ h1]
  exact ⟨h1, rfl, rfl⟩

/-- C6 witness: resolved target srv1, max_retries = 1, a deployment
failing once then succeeding: 2 attempts, succeeded, both calls sent to
(HUB-A, srv1). -/
theorem C6_witness :
    (processTarget stOne (fun _ _ k => k == 1) 1 "srv1").pushed = true ∧
    (processTarget stOne (fun _ _ k => k == 1) 1 "srv1").attempts = 2 ∧
    (processTarget stOne (fun _ _ k => k == 1) 1 "srv1").pushArgs =
      [("HUB-A", "srv1"), ("HUB-A", "srv1")] :=
  C6_theorem stOne (fun _ _ k => k == 1) 1 "srv1" "HUB-A" "srv1" (by decide)
    rfl rfl (by decide)

/-! ### C9 -/

/-- CLAIM C9: for every resolved target, a zero or negative configured
retry count means exactly one deployment attempt and no sleep, whatever
the attempt returns: the while guard `attempts < retries` is false at
attempts = 0. -/
theorem C9_theorem (st : Store) (pushFn : String → String → Nat → Bool)
    (retries : Int) (t hub rb : String)
    (hfound : has_robot st (pyLower (pyStrip t)) = some (hub, rb))
    (hret : retries ≤ 0) :
    (processTarget st pushFn retries t).attempts = 1 ∧
    (processTarget st pushFn retries t).sleeps = 0 := by
  rw [processTarget_some st pushFn retries t hub rb hfound]
  have h0 : retries.toNat = 0 := by omega
  rw [h0]
  exact ⟨rfl, rfl⟩

/-- C9 witness: resolved target srv1 with retries = -1: one attempt, no
sleep. -/
theorem C9_witness :
    (processTarget stOne (fun _ _ _ => true) (-1) "srv1").attempts = 1 ∧
    (processTarget stOne (fun _ _ _ => true) (-1) "srv1").sleeps = 0 :=
  C9_theorem stOne (fun _ _ _ => true) (-1) "srv1" "HUB-A" "srv1" (by decide)
    (by decide)

/-! ### C7 -/

theorem foldl_preserve_mem {α β : Type} (P : β → Prop) (f : β → α → β) :
    ∀ (l : List α), (∀ b a, a ∈ l → P b → P (f b a)) → ∀ b, P b → P (l.foldl f b)
  | [], _, _, hb => hb
  | a :: l, hstep, b, hb =>
    foldl_preserve_mem P f l
      (fun b' a' ha' hb' => hstep b' a' (List.mem_cons_of_mem _ ha') hb')
      (f b a) (hstep b a (List.mem_cons_self _ _) hb)

theorem putRobots_mem (hub : String) (robots : List Robot) :
    ∀ (rows : List (String × String)) (p : String × String),
      p ∈ robots.foldl (fun rs r => insertRobot rs hub r.name) rows →
      p ∈ rows ∨ ∃ r ∈ robots, p.1 = r.name ∧ p.2 = hub := by
  induction robots with
  | nil => exact fun rows p hp => Or.inl hp
  | cons r robots ih =>
    intro rows p hp
    simp only [List.foldl_cons] at hp
    rcases ih _ p hp with h | h
    · unfold insertRobot at h
      split at h
      · exact Or.inl h
      · rcases List.mem_append.mp h with h' | h'
        · exact Or.inl h'
        · simp only [List.mem_singleton] at h'
          exact Or.inr ⟨r, by simp, by simp [h']⟩
    · obtain ⟨r', hr', h1, h2⟩ := h
      exact Or.inr ⟨r', by simp [hr'], h1, h2⟩

/-- Every row of the built store comes from some hub's robot
enumeration: the robot column is some reported robot's name. -/
theorem buildStore_provenance (env : Env) (excluded : String) :
    ∀ rows, buildStore env excluded = some rows →
      ∀ p ∈ rows, ∃ h, h ∈ get_hubs env ∧
        ∃ r, r ∈ get_robots env h.name ∧ p.1 = r.name := by
  unfold buildStore
  refine foldl_preserve_mem
    (fun st : Store => ∀ rows, st = some rows →
      ∀ p ∈ rows, ∃ h, h ∈ get_hubs env ∧
        ∃ r, r ∈ get_robots env h.name ∧ p.1 = r.name)
    _ _ ?_ _ ?_
  · intro st hub hmem hP
    split
    · exact hP
    · cases st with
      | none => intro rows h; simp [put_robots] at h
      | some rs =>
        intro rows h p hp
        simp only [put_robots, Option.some.injEq] at h
        subst h
        rcases putRobots_mem hub.name (get_robots env hub.name) rs p hp with h | h
        · exact hP rs rfl p h
        · obtain ⟨r, hr, h1, _⟩ := h
          exact ⟨hub, hmem, r, hr, h1⟩
  · intro rows h
    unfold create_db at h
    split at h
    · cases h
      intro p hp
      simp at hp
    · cases h

/-- Looking up a name no enumerated robot matches fails. -/
theorem buildStore_lookup_fails (env : Env) (excluded : String) (n : String)
    (hno : ∀ h ∈ get_hubs env, ∀ r ∈ get_robots env h.name,
      pyLower r.name ≠ pyLower n) :
    has_robot (buildStore env excluded) n = none := by
  cases hb : buildStore env excluded with
  | none => rfl
  | some rows =>
    have hfind : rows.find? (fun p => pyLower p.1 == pyLower n) = none := by
      rw [List.find?_eq_none]
      intro p hp
      obtain ⟨h, hh, r, hr, hpr⟩ := buildStore_provenance env excluded rows hb p hp
      rw [hpr]
      simp only [beq_iff_eq]
      exact hno h hh r hr
    simp [has_robot, hfind]

theorem foldl_reportStep_norobot_sub :
    ∀ (outs : List TargetOutcome) (acc : List String × List String × Nat) (x : String),
      x ∈ acc.2.1 → x ∈ (outs.foldl reportStep acc).2.1 := by
  intro outs
  induction outs with
  | nil => exact fun acc x h => h
  | cons o outs ih =>
    intro acc x h
    simp only [List.foldl_cons]
    apply ih
    cases ho : o.found with
    | none => simp [reportStep, ho, h]
    | some p =>
      by_cases hp : o.pushed = true
      · simp [reportStep, ho, hp, h]
      · simp [reportStep, ho, hp, h]

theorem mem_norobot_of_outcome :
    ∀ (outs : List TargetOutcome) (acc : List String × List String × Nat)
      (o : TargetOutcome), o ∈ outs → o.found = none →
      o.robotNorm ∈ (outs.foldl reportStep acc).2.1 := by
  intro outs
  induction outs with
  | nil => intro acc o h _; simp at h
  | cons o' outs ih =>
    intro acc o h ho
    rcases List.mem_cons.mp h with h1 | h1
    · subst h1
      simp only [List.foldl_cons]
      apply foldl_reportStep_norobot_sub
      simp [reportStep, ho]
    · simp only [List.foldl_cons]
      exact ih _ o h1 ho

/-- An environment where HUB-A enumerates robot srv1 and HUB-B's robot
enumeration fails (connection error or non-success status). -/
def envC7 : Env :=
  ⟨some [⟨"HUB-A"⟩, ⟨"HUB-B"⟩],
   fun h => if h == "HUB-A" then some [⟨"srv1"⟩] else none,
   fun _ _ _ => true,
   true⟩

/-- CLAIM C7: (a) a hub whose robot-enumeration call fails writes no
entry to the store (get_robots returns the empty result and put_robots
of the empty list is the identity), the build continuing over the other
hubs unchanged; (b) a target matched by no enumerated robot — in
particular one owned only by a failed hub — resolves to nothing, gets
zero deployment attempts, and is written to the unresolved report under
its normalized name in any run that lists it. -/
theorem C7_theorem :
    (∀ (env : Env) (hubname : String) (st : Store),
       env.robotsResp hubname = none →
       put_robots st hubname (get_robots env hubname) = st) ∧
    (∀ (env : Env) (excluded : String) (retries : Int) (t : String)
       (targets : List String),
       (∀ h ∈ get_hubs env, ∀ r ∈ get_robots env h.name,
          pyLower r.name ≠ pyLower (pyLower (pyStrip t))) →
       t ∈ targets →
       (processTarget (buildStore env excluded) env.push retries t).found = none ∧
       (processTarget (buildStore env excluded) env.push retries t).attempts = 0 ∧
       pyLower (pyStrip t) ∈ (runPipeline env excluded retries targets).norobotReport) := by
  constructor
  · intro env hubname st h
    have hrob : get_robots env hubname = [] := by simp [get_robots, h]
    rw [hrob]
    cases st with
    | none => rfl
    | some rows => rfl
  · intro env excluded retries t targets hno hmem
    have hlook : has_robot (buildStore env excluded) (pyLower (pyStrip t)) = none :=
      buildStore_lookup_fails env excluded _ hno
    have hout := processTarget_none (buildStore env excluded) env.push retries t hlook
    refine ⟨by rw [hout], by rw [hout], ?_⟩
    have homem : processTarget (buildStore env excluded) env.push retries t ∈
        runOutcomes env excluded retries targets :=
      List.mem_map_of_mem _ hmem
    have hmem2 := mem_norobot_of_outcome (runOutcomes env excluded retries targets)
      ([], [], 0) (processTarget (buildStore env excluded) env.push retries t)
      homem (by rw [hout])
    rw [hout] at hmem2
    simpa [runPipeline, reportFold] using hmem2

/-- C7 witness: with HUB-B's enumeration failing, putting its (empty)
robot list changes nothing, and target srv3 — owned only by HUB-B in
this topology — is unresolved with zero attempts and lands in the
unresolved report. -/
theorem C7_witness :
    put_robots (some []) "HUB-B" (get_robots envC7 "HUB-B") = some [] ∧
    ((processTarget (buildStore envC7 "") envC7.push 1 "srv3").found = none ∧
     (processTarget (buildStore envC7 "") envC7.push 1 "srv3").attempts = 0 ∧
     pyLower (pyStrip "srv3") ∈ (runPipeline envC7 "" 1 ["srv3"]).norobotReport) :=
  ⟨C7_theorem.1 envC7 "HUB-B" (some []) rfl,
   C7_theorem.2 envC7 "" 1 "srv3" ["srv3"] (by decide) (by decide)⟩

/-! ### C8 -/

theorem reportStep_skip (acc : List String × List String × Nat)
    (o : TargetOutcome) (h1 : o.found.isSome = true) (h2 : o.pushed = false) :
    reportStep acc o = acc := by
  cases ho : o.found with
  | none => rw [ho] at h1; simp at h1
  | some p => simp [reportStep, ho, h2]

/-- CLAIM C8: a target that resolves but whose deployment never succeeds
leaves no trace in either report or in the success count: the run over a
target list containing it produces the same pushed report, unresolved
report and times_pushed counter as the run over the list without it. -/
theorem C8_theorem (env : Env) (excluded : String) (retries : Int)
    (ts1 ts2 : List String) (t : String)
    (h1 : (processTarget (buildStore env excluded) env.push retries t).found.isSome = true)
    (h2 : (processTarget (buildStore env excluded) env.push retries t).pushed = false) :
    (runPipeline env excluded retries (ts1 ++ t :: ts2)).pushedReport =
      (runPipeline env excluded retries (ts1 ++ ts2)).pushedReport ∧
    (runPipeline env excluded retries (ts1 ++ t :: ts2)).norobotReport =
      (runPipeline env excluded retries (ts1 ++ ts2)).norobotReport ∧
    (runPipeline env excluded retries (ts1 ++ t :: ts2)).timesPushed =
      (runPipeline env excluded retries (ts1 ++ ts2)).timesPushed := by
  have key : reportFold (runOutcomes env excluded retries (ts1 ++ t :: ts2)) =
      reportFold (runOutcomes env excluded retries (ts1 ++ ts2)) := by
    unfold runOutcomes reportFold
    rw [List.map_append, List.map_cons, List.map_append]
    rw [List.foldl_append, List.foldl_append, List.foldl_cons]
    rw [reportStep_skip _ _ h1 h2]
  refine ⟨?_, ?_, ?_⟩ <;> simp only [runPipeline] <;> rw [key]

/-- A one-hub topology whose deployment always fails. -/
def envC8 : Env :=
  ⟨some [⟨"HUB-A"⟩], fun _ => some [⟨"srv1"⟩], fun _ _ _ => false, true⟩

/-- C8 witness: target srv1 resolves to HUB-A, every push fails with
max_retries = 1, and the run over ["srv1"] produces exactly the reports
and counter of the run over the empty target list. -/
theorem C8_witness :
    (runPipeline envC8 "" 1 (["srv1"] : List String)).pushedReport =
      (runPipeline envC8 "" 1 ([] : List String)).pushedReport ∧
    (runPipeline envC8 "" 1 (["srv1"] : List String)).norobotReport =
      (runPipeline envC8 "" 1 ([] : List String)).norobotReport ∧
    (runPipeline envC8 "" 1 (["srv1"] : List String)).timesPushed =
      (runPipeline envC8 "" 1 ([] : List String)).timesPushed :=
  C8_theorem envC8 "" 1 [] [] "srv1" (by decide) (by decide)

/-! ### C10 -/

theorem reportFold_counter :
    ∀ (outs : List TargetOutcome) (acc : List String × List String × Nat),
      acc.2.2 = acc.1.length →
      (outs.foldl reportStep acc).2.2 = (outs.foldl reportStep acc).1.length := by
  intro outs
  induction outs with
  | nil => exact fun _ h => h
  | cons o outs ih =>
    intro acc h
    simp only [List.foldl_cons]
    apply ih
    cases ho : o.found with
    | none => simp [reportStep, ho, h]
    | some p =>
      by_cases hp : o.pushed = true
      · simp [reportStep, ho, hp, h]
      · simp [reportStep, ho, hp, h]

/-- CLAIM C10: at the end of every run, the reported success count equals
the number of hostnames written to the pushed report — the counter and
the pushed file advance in lockstep, one line and one increment per
succeeded target, and nothing else touches either. -/
theorem C10_theorem (env : Env) (excluded : String) (retries : Int)
    (targets : List String) :
    (runPipeline env excluded retries targets).timesPushed =
      (runPipeline env excluded retries targets).pushedReport.length := by
  simp only [runPipeline, reportFold]
  exact reportFold_counter _ ([], [], 0) rfl

end Cauimws
